import Mathlib

/-!
# SessionMgr dialogs: the "Delete Session" and "Settings" dialog procedures

A shallow embedding of `src/DlgDelete.cpp` and `src/DlgSettings.cpp`.

* Every dialog procedure is a function from a message and the mutable state it can
  touch to its `INT_PTR` result and the new state.
* Calls that leave the translation unit for their effect (Win32, `dlg::`, `msg::`,
  `app_`, `gCfg`) are recorded, in call order, in a trace of `Event`s kept in the
  state; calls made for their result only (getters, `dlg::getCheck`,
  `dlg::getText`, `GetWindowRect`, `GetClientRect`) read the state or the
  environment and are not recorded.
* Results of collaborators (the validity of a session index, the outcome of
  `DeleteFileW`, of `gCfg.save`, of the folder picker, window rectangles) are
  fields of an environment record: theorems quantify over all of them.
* One call of a dialog procedure is modelled; messages that Win32 delivers
  re-entrantly while a handler runs are separate calls of the procedure.
* `INT` and `LONG` values are integers; the only arithmetic is the difference of
  two window coordinates, which `INT_sub` computes in 32 bits, wrapping around
  as the two-complement machine subtraction does.
-/

namespace NppPlugin

/-! ## Win32 constants and helpers -/

/-- Win32 `TRUE`. -/
def TRUE : Int := 1
/-- Win32 `FALSE`. -/
def FALSE : Int := 0

def WM_GETMINMAXINFO : Nat := 0x0024
def WM_WINDOWPOSCHANGED : Nat := 0x0047
def WM_INITDIALOG : Nat := 0x0110
def WM_COMMAND : Nat := 0x0111

def IDOK : Nat := 1
def IDCANCEL : Nat := 2

def BN_CLICKED : Nat := 0
def EN_CHANGE : Nat := 0x0300

def SWP_NOSIZE : Nat := 0x0001
def SW_SHOW : Nat := 5
def NO_ERROR : Nat := 0
def MAX_PATH : Nat := 260

/-- Win32 `LOWORD`: the low 16 bits. -/
def LOWORD (x : Nat) : Nat := x % 65536
/-- Win32 `HIWORD`: bits 16..31. -/
def HIWORD (x : Nat) : Nat := (x / 65536) % 65536

/-- Win32 `RECT`. -/
structure RECT where
  left : Int
  top : Int
  right : Int
  bottom : Int
deriving DecidableEq, Repr

/-- The subtraction of two `LONG` values into an `INT`, both 32 bits wide: the
difference modulo 2^32, in the range from -2^31 to 2^31 - 1. -/
def INT_sub (a b : Int) : Int :=
  (a - b + 2147483648) % 4294967296 - 2147483648

/-- The width and height of the rectangle fit an `INT`, so that the 32-bit
subtractions do not wrap around. -/
def RECT.fitsINT (r : RECT) : Prop :=
  (-2147483648 ≤ r.right - r.left ∧ r.right - r.left ≤ 2147483647) ∧
  (-2147483648 ≤ r.bottom - r.top ∧ r.bottom - r.top ≤ 2147483647)

instance (r : RECT) : Decidable r.fitsINT :=
  inferInstanceAs (Decidable
    ((-2147483648 ≤ r.right - r.left ∧ r.right - r.left ≤ 2147483647) ∧
     (-2147483648 ≤ r.bottom - r.top ∧ r.bottom - r.top ≤ 2147483647)))

/-- Win32 `POINT`. -/
structure POINT where
  x : Int
  y : Int
deriving DecidableEq, Repr

/-- Win32 `MINMAXINFO`. -/
structure MINMAXINFO where
  ptReserved : POINT
  ptMaxSize : POINT
  ptMaxPosition : POINT
  ptMinTrackSize : POINT
  ptMaxTrackSize : POINT
deriving DecidableEq, Repr

/-- Modelled from the spec: `Util.h` is not among the sources; `M_INFO` and `M_WARN`
are the two message kinds `msg::show` is called with. -/
inductive MsgKind where
  | M_INFO
  | M_WARN
deriving DecidableEq, Repr

/-- The methods of `gCfg` that are called for their effect. -/
inductive CfgCall where
  | setAutoSave (v : Bool)
  | setAutoLoad (v : Bool)
  | setLoadIntoCurrent (v : Bool)
  | setLoadWithoutClosing (v : Bool)
  | setShowInTitlebar (v : Bool)
  | setShowInStatusbar (v : Bool)
  | setGlobalBookmarks (v : Bool)
  | setSesDir (p : String)
  | setSesExt (p : String)
  | save
  | saveCfgDlgSize (w h : Int)
deriving DecidableEq, Repr

/-- A call that leaves the translation unit, with its arguments (the `HWND` is
always that of the dialog and is left out). For `dlg::centerWnd`, `parentIsNpp` tells
whether the parent argument is `sys_getNppHandle()` (else `NULL`) and `sizeArgs`
holds the trailing width, height and resize arguments when the call passes them;
for `dlg::adjToEdge`, `redraw` is the trailing argument when the call passes it. -/
inductive Event where
  | EndDialog (result : Int)
  | ShowWindow (cmd : Nat)
  | DeleteFileW (path : String)
  | msg_error (le : Nat) (fmt : String) (args : List String)
  | msg_show (text : String) (kind : MsgKind)
  | dlg_focus (ctrl : Nat)
  | dlg_centerWnd (parentIsNpp : Bool) (xOffset yOffset : Int)
      (sizeArgs : Option (Int × Int × Bool))
  | dlg_adjToEdge (ctrl : Nat) (dlgW dlgH : Int) (toChange : Nat) (xRight yBottom : Nat)
      (redraw : Option Bool)
  | dlg_setCheck (ctrl : Nat) (v : Bool)
  | dlg_setText (ctrl : Nat) (text : String)
  | gCfg (call : CfgCall)
  | app_readSessionDirectory
  | shellFree (pidl : Nat)
  | shellRelease
deriving DecidableEq, Repr

/-- A message as delivered to a dialog procedure. `wpFlags` is
`((LPWINDOWPOS)lParam)->flags`, read only for `WM_WINDOWPOSCHANGED`; the
`MINMAXINFO` that `lParam` points to for `WM_GETMINMAXINFO` lives in the state,
since the procedure writes to it. -/
structure Msg where
  uMessage : Nat
  wParam : Nat
  wpFlags : Nat
deriving DecidableEq, Repr

/-- The events appended to trace `before` to reach trace `after`. -/
def newEvents (before after : List Event) : List Event :=
  after.drop before.length

/-! ## DlgDelete.cpp -/

namespace DlgDelete

/-- Results of the collaborators of the delete dialog. `functionName` is the
value of `_W(__FUNCTION__)` inside `onOk`. -/
structure Env where
  dlgSes_getLbSelectedData : Int
  app_isValidSessionIndex : Int → Bool
  app_getSessionFile : Int → String
  DeleteFileW : String → Bool
  GetLastError : Nat
  functionName : String

/-- The delete dialog has no variables of its own; its state is the trace. -/
structure State where
  trace : List Event
deriving DecidableEq, Repr

/-- Record a call. -/
def State.emit (s : State) (e : Event) : State :=
  { s with trace := s.trace ++ [e] }

/-- Function `onInit` of DlgDelete.cpp (lines 72-78). -/
def onInit (s : State) : Bool × State :=
  let s := s.emit (.dlg_focus IDOK)
  let s := s.emit (.dlg_centerWnd false 150 (-5) none)
  let s := s.emit (.ShowWindow SW_SHOW)
  (true, s)

/-- Function `onOk` of DlgDelete.cpp (lines 80-95). -/
def onOk (env : Env) (s : State) : Bool × State :=
  let sesSelIdx := env.dlgSes_getLbSelectedData
  if env.app_isValidSessionIndex sesSelIdx then
    let sesPth := env.app_getSessionFile sesSelIdx
    let s := s.emit (.DeleteFileW sesPth)
    if env.DeleteFileW sesPth then
      (true, s)
    else
      let le := env.GetLastError
      let s := s.emit (.msg_error le "%s: Error deleting \"%s\"." [env.functionName, sesPth])
      (false, s)
  else
    (false, s)

/-- Function `dlgDel_msgProc` of DlgDelete.cpp (lines 42-66). -/
def dlgDel_msgProc (env : Env) (m : Msg) (s : State) : Int × State :=
  if m.uMessage = WM_COMMAND then
    if LOWORD m.wParam = IDOK then
      let (ok, s) := onOk env s
      if ok then
        let s := s.emit (.EndDialog 1)
        (TRUE, s)
      else
        (FALSE, s)
    else if LOWORD m.wParam = IDCANCEL then
      let s := s.emit (.EndDialog 0)
      (TRUE, s)
    else
      (FALSE, s)
  else if m.uMessage = WM_INITDIALOG then
    let (ok, s) := onInit s
    if ok then (TRUE, s) else (FALSE, s)
  else
    (FALSE, s)

/-- The message `WM_COMMAND` with control id `IDOK` and notification code 0. -/
def okMsg : Msg := { uMessage := WM_COMMAND, wParam := IDOK, wpFlags := 0 }

/-- A sample environment: index 3 is the selection, indices 0..9 are valid, the
file of session 3 cannot be deleted (error 5), every other file can. -/
def sampleEnv : Env :=
  { dlgSes_getLbSelectedData := 3
    app_isValidSessionIndex := fun i => decide (0 ≤ i ∧ i < 10)
    app_getSessionFile := fun i => if i = 3 then "s3" else "s"
    DeleteFileW := fun p => p != "s3"
    GetLastError := 5
    functionName := "onOk" }

end DlgDelete

/-! ## DlgSettings.cpp -/

namespace DlgSettings

def MSG_NO_CHANGES : String := "There were no changes."
def MSG_DIR_ERROR : String :=
  "An error occurred while creating the new session directory.\nThis setting was not changed."

/-- The identifiers of `res\resource.h` that DlgSettings.cpp uses. The header is
not among the sources, so their values are parameters. -/
structure ResourceIds where
  IDC_CFG_CHK_ASV : Nat
  IDC_CFG_CHK_ALD : Nat
  IDC_CFG_CHK_LIC : Nat
  IDC_CFG_CHK_LWC : Nat
  IDC_CFG_CHK_SITB : Nat
  IDC_CFG_CHK_SISB : Nat
  IDC_CFG_CHK_GBKM : Nat
  IDC_CFG_ETX_DIR : Nat
  IDC_CFG_ETX_EXT : Nat
  IDC_CFG_BTN_BRW : Nat
  IDC_CFG_ETX_WRO : Nat
  IDC_CFG_BTN_OK_XRO : Nat
  IDC_CFG_BTN_YBO : Nat
  IDC_CFG_BTN_CAN_XRO : Nat
deriving DecidableEq, Repr

/-- The `case` labels of the `switch` in `dlgCfg_msgProc`, in source order. -/
def ResourceIds.caseLabels (ids : ResourceIds) : List Nat :=
  [IDOK, IDCANCEL,
   ids.IDC_CFG_CHK_ASV, ids.IDC_CFG_CHK_ALD, ids.IDC_CFG_CHK_LIC, ids.IDC_CFG_CHK_LWC,
   ids.IDC_CFG_CHK_SITB, ids.IDC_CFG_CHK_SISB, ids.IDC_CFG_CHK_GBKM,
   ids.IDC_CFG_ETX_DIR, ids.IDC_CFG_ETX_EXT, ids.IDC_CFG_BTN_BRW]

/-- The seven checkbox ids. -/
def ResourceIds.checkboxes (ids : ResourceIds) : List Nat :=
  [ids.IDC_CFG_CHK_ASV, ids.IDC_CFG_CHK_ALD, ids.IDC_CFG_CHK_LIC, ids.IDC_CFG_CHK_LWC,
   ids.IDC_CFG_CHK_SITB, ids.IDC_CFG_CHK_SISB, ids.IDC_CFG_CHK_GBKM]

/-- Modelled from the spec: the class of `gCfg` (`Config.h`) is not among the
sources. The spec lists what it holds: seven boolean feature flags, a session
directory path, a session file extension and a remembered dialog size. -/
structure Config where
  autoSave : Bool
  autoLoad : Bool
  loadIntoCurrent : Bool
  loadWithoutClosing : Bool
  showInTitlebar : Bool
  showInStatusbar : Bool
  globalBookmarks : Bool
  sesDir : String
  sesExt : String
  cfgDlgW : Int
  cfgDlgH : Int
deriving DecidableEq, Repr

namespace Config

/-- Modelled from the spec: getter of `gCfg` (`Config.h` is not among the sources). -/
def autoSaveEnabled (c : Config) : Bool := c.autoSave
/-- Modelled from the spec: getter of `gCfg` (`Config.h` is not among the sources). -/
def autoLoadEnabled (c : Config) : Bool := c.autoLoad
/-- Modelled from the spec: getter of `gCfg` (`Config.h` is not among the sources). -/
def loadIntoCurrentEnabled (c : Config) : Bool := c.loadIntoCurrent
/-- Modelled from the spec: getter of `gCfg` (`Config.h` is not among the sources). -/
def loadWithoutClosingEnabled (c : Config) : Bool := c.loadWithoutClosing
/-- Modelled from the spec: getter of `gCfg` (`Config.h` is not among the sources). -/
def showInTitlebarEnabled (c : Config) : Bool := c.showInTitlebar
/-- Modelled from the spec: getter of `gCfg` (`Config.h` is not among the sources). -/
def showInStatusbarEnabled (c : Config) : Bool := c.showInStatusbar
/-- Modelled from the spec: getter of `gCfg` (`Config.h` is not among the sources). -/
def globalBookmarksEnabled (c : Config) : Bool := c.globalBookmarks
/-- Modelled from the spec: getter of `gCfg` (`Config.h` is not among the sources). -/
def getSesDir (c : Config) : String := c.sesDir
/-- Modelled from the spec: getter of `gCfg` (`Config.h` is not among the sources). -/
def getSesExt (c : Config) : String := c.sesExt
/-- Modelled from the spec: `gCfg.readCfgDlgSize` (`Config.h` is not among the
sources) yields the remembered dialog size. -/
def readCfgDlgSize (c : Config) : Int × Int := (c.cfgDlgW, c.cfgDlgH)

/-- Modelled from the spec: flag setter of `gCfg` (`Config.h` is not among the sources). -/
def setAutoSave (c : Config) (v : Bool) : Config := { c with autoSave := v }
/-- Modelled from the spec: flag setter of `gCfg` (`Config.h` is not among the sources). -/
def setAutoLoad (c : Config) (v : Bool) : Config := { c with autoLoad := v }
/-- Modelled from the spec: flag setter of `gCfg` (`Config.h` is not among the sources). -/
def setLoadIntoCurrent (c : Config) (v : Bool) : Config := { c with loadIntoCurrent := v }
/-- Modelled from the spec: flag setter of `gCfg` (`Config.h` is not among the sources). -/
def setLoadWithoutClosing (c : Config) (v : Bool) : Config := { c with loadWithoutClosing := v }
/-- Modelled from the spec: flag setter of `gCfg` (`Config.h` is not among the sources). -/
def setShowInTitlebar (c : Config) (v : Bool) : Config := { c with showInTitlebar := v }
/-- Modelled from the spec: flag setter of `gCfg` (`Config.h` is not among the sources). -/
def setShowInStatusbar (c : Config) (v : Bool) : Config := { c with showInStatusbar := v }
/-- Modelled from the spec: flag setter of `gCfg` (`Config.h` is not among the sources). -/
def setGlobalBookmarks (c : Config) (v : Bool) : Config := { c with globalBookmarks := v }

/-- Modelled from the spec: `gCfg.setSesDir` (`Config.h` is not among the sources).
Directory validity is the business of the setter: `stored` is its verdict on the text,
the directory it stores, or `none` when it rejects the text, in which case the
setting is not changed and the call returns false. -/
def setSesDir (stored : Option String) (c : Config) : Bool × Config :=
  match stored with
  | some d => (true, { c with sesDir := d })
  | none => (false, c)

/-- Modelled from the spec: `gCfg.setSesExt` (`Config.h` is not among the sources);
`stored` is the extension the setter stores for the text it is given. -/
def setSesExt (stored : String) (c : Config) : Config := { c with sesExt := stored }

/-- Modelled from the spec: `gCfg.saveCfgDlgSize` (`Config.h` is not among the
sources) sets the remembered dialog size. -/
def saveCfgDlgSize (c : Config) (w h : Int) : Config := { c with cfgDlgW := w, cfgDlgH := h }

end Config

/-- Results of the collaborators of the settings dialog.
* `sesDirFor p`: what `gCfg.setSesDir(p)` stores, `none` when it returns false;
* `sesExtFor p`: what `gCfg.setSesExt(p)` stores;
* `saveResult c`: the result of `gCfg.save()` when the configuration is `c`;
* `initWindowRect`: the rectangle `GetWindowRect` yields in `onInit`;
* `clientRect`, `resizeWindowRect`: the rectangles `GetClientRect` and
  `GetWindowRect` yield in `onResize`;
* `SHGetMalloc`: its `HRESULT`; `SHBrowseForFolderW`: the item list it returns
  (0 is the null pointer); `SHGetPathFromIDListW pidl`: the path written to the
  buffer, `none` when the call returns `FALSE`. -/
structure Env where
  sesDirFor : String → Option String
  sesExtFor : String → String
  saveResult : Config → Bool
  initWindowRect : RECT
  clientRect : RECT
  resizeWindowRect : RECT
  SHGetMalloc : Nat
  SHBrowseForFolderW : Nat
  SHGetPathFromIDListW : Nat → Option String

/-- Everything the settings dialog procedure can change: the file-level
variables of DlgSettings.cpp, `gCfg`, the check states and texts of the controls
of the dialog (by control id), the `MINMAXINFO` that `lParam` points to, and the trace. -/
structure State where
  _minWidth : Int
  _minHeight : Int
  _inInit : Bool
  _opChanged : Bool
  _dirChanged : Bool
  gCfg : Config
  checks : Nat → Bool
  texts : Nat → String
  minMaxInfo : MINMAXINFO
  trace : List Event

/-- Record a call. -/
def State.emit (s : State) (e : Event) : State :=
  { s with trace := s.trace ++ [e] }

/-- Call a method of `gCfg` for its effect: record the call and install the new `gCfg`. -/
def State.callCfg (s : State) (call : CfgCall) (c : Config) : State :=
  { s with gCfg := c, trace := s.trace ++ [.gCfg call] }

/-- Modelled from the spec: `dlg::getCheck` (`Util.h` is not among the sources)
reads the check state of a control. -/
def dlg_getCheck (s : State) (ctrl : Nat) : Bool := s.checks ctrl

/-- Modelled from the spec: `dlg::setCheck` (`Util.h` is not among the sources)
sets the check state of a control. -/
def dlg_setCheck (s : State) (ctrl : Nat) (v : Bool) : State :=
  { s with checks := Function.update s.checks ctrl v,
           trace := s.trace ++ [.dlg_setCheck ctrl v] }

/-- Modelled from the spec: `dlg::getText` (`Util.h` is not among the sources)
copies the text of a control into a buffer of `bufLen` characters, terminator
included. -/
def dlg_getText (s : State) (ctrl : Nat) (bufLen : Nat) : String :=
  String.mk ((s.texts ctrl).data.take (bufLen - 1))

/-- Modelled from the spec: `dlg::setText` (`Util.h` is not among the sources)
sets the text of a control. -/
def dlg_setText (s : State) (ctrl : Nat) (text : String) : State :=
  { s with texts := Function.update s.texts ctrl text,
           trace := s.trace ++ [.dlg_setText ctrl text] }

/-- Function `onResize` of DlgSettings.cpp (lines 206-225); its callers pass
no size, so the default arguments 0, 0 are passed here explicitly. -/
def onResize (ids : ResourceIds) (env : Env) (s : State) (dlgW dlgH : Int) : State :=
  let (dlgW, dlgH) :=
    if dlgW = 0 then
      let r := env.clientRect
      (r.right, r.bottom)
    else (dlgW, dlgH)
  let s := s.emit (.dlg_adjToEdge ids.IDC_CFG_ETX_DIR dlgW dlgH 4 ids.IDC_CFG_ETX_WRO 0 none)
  let s := s.emit (.dlg_adjToEdge ids.IDC_CFG_ETX_EXT dlgW dlgH 4 ids.IDC_CFG_ETX_WRO 0 none)
  let s := s.emit (.dlg_adjToEdge IDOK dlgW dlgH (1 ||| 2) ids.IDC_CFG_BTN_OK_XRO
    ids.IDC_CFG_BTN_YBO none)
  let s := s.emit (.dlg_adjToEdge IDCANCEL dlgW dlgH (1 ||| 2) ids.IDC_CFG_BTN_CAN_XRO
    ids.IDC_CFG_BTN_YBO (some true))
  let r := env.resizeWindowRect
  s.callCfg (.saveCfgDlgSize (INT_sub r.right r.left) (INT_sub r.bottom r.top))
    (s.gCfg.saveCfgDlgSize (INT_sub r.right r.left) (INT_sub r.bottom r.top))

/-- Function `onInit` of DlgSettings.cpp (lines 124-161). -/
def onInit (ids : ResourceIds) (env : Env) (s : State) : Bool × State :=
  let s := { s with _inInit := true }
  let s := { s with _opChanged := false }
  let s := { s with _dirChanged := false }
  let s :=
    if s._minWidth = 0 then
      let r := env.initWindowRect
      let s := { s with _minWidth := INT_sub r.right r.left }
      { s with _minHeight := INT_sub r.bottom r.top }
    else s
  let s := dlg_setCheck s ids.IDC_CFG_CHK_ASV s.gCfg.autoSaveEnabled
  let s := dlg_setCheck s ids.IDC_CFG_CHK_ALD s.gCfg.autoLoadEnabled
  let s := dlg_setCheck s ids.IDC_CFG_CHK_LIC s.gCfg.loadIntoCurrentEnabled
  let s := dlg_setCheck s ids.IDC_CFG_CHK_LWC s.gCfg.loadWithoutClosingEnabled
  let s := dlg_setCheck s ids.IDC_CFG_CHK_SITB s.gCfg.showInTitlebarEnabled
  let s := dlg_setCheck s ids.IDC_CFG_CHK_SISB s.gCfg.showInStatusbarEnabled
  let s := dlg_setCheck s ids.IDC_CFG_CHK_GBKM s.gCfg.globalBookmarksEnabled
  let s := dlg_setText s ids.IDC_CFG_ETX_DIR s.gCfg.getSesDir
  let s := dlg_setText s ids.IDC_CFG_ETX_EXT s.gCfg.getSesExt
  let s := s.emit (.dlg_focus ids.IDC_CFG_ETX_DIR)
  let (w, h) := s.gCfg.readCfgDlgSize
  let (w, h) := if w ≤ 0 ∨ h ≤ 0 then ((0 : Int), (0 : Int)) else (w, h)
  let s := s.emit (.dlg_centerWnd true 0 0 (some (w, h, true)))
  let s := onResize ids env s 0 0
  let s := s.emit (.ShowWindow SW_SHOW)
  let s := { s with _inInit := false }
  (true, s)

/-- Function `onOk` of DlgSettings.cpp (lines 165-203). -/
def onOk (ids : ResourceIds) (env : Env) (s : State) : Int × State :=
  let stat : Int := 0
  let change := false
  let (change, s) :=
    if s._opChanged then
      let v := dlg_getCheck s ids.IDC_CFG_CHK_ASV
      let s := s.callCfg (.setAutoSave v) (s.gCfg.setAutoSave v)
      let v := dlg_getCheck s ids.IDC_CFG_CHK_ALD
      let s := s.callCfg (.setAutoLoad v) (s.gCfg.setAutoLoad v)
      let v := dlg_getCheck s ids.IDC_CFG_CHK_LIC
      let s := s.callCfg (.setLoadIntoCurrent v) (s.gCfg.setLoadIntoCurrent v)
      let v := dlg_getCheck s ids.IDC_CFG_CHK_LWC
      let s := s.callCfg (.setLoadWithoutClosing v) (s.gCfg.setLoadWithoutClosing v)
      let v := dlg_getCheck s ids.IDC_CFG_CHK_SITB
      let s := s.callCfg (.setShowInTitlebar v) (s.gCfg.setShowInTitlebar v)
      let v := dlg_getCheck s ids.IDC_CFG_CHK_SISB
      let s := s.callCfg (.setShowInStatusbar v) (s.gCfg.setShowInStatusbar v)
      let v := dlg_getCheck s ids.IDC_CFG_CHK_GBKM
      let s := s.callCfg (.setGlobalBookmarks v) (s.gCfg.setGlobalBookmarks v)
      (true, s)
    else (change, s)
  let (stat, change, s) :=
    if s._dirChanged then
      let buf := dlg_getText s ids.IDC_CFG_ETX_DIR MAX_PATH
      let (accepted, c) := s.gCfg.setSesDir (env.sesDirFor buf)
      let s := s.callCfg (.setSesDir buf) c
      let stat := if !accepted then 2 else stat
      let buf := dlg_getText s ids.IDC_CFG_ETX_EXT MAX_PATH
      let s := s.callCfg (.setSesExt buf) (s.gCfg.setSesExt (env.sesExtFor buf))
      (stat, true, s)
    else (stat, change, s)
  if change then
    let saved := env.saveResult s.gCfg
    let s := s.callCfg .save s.gCfg
    if saved then
      if s._dirChanged then
        (stat, s.emit .app_readSessionDirectory)
      else (stat, s)
    else (stat, s)
  else
    (1, s)

/-- Function `onGetMinSize` of DlgSettings.cpp (lines 228-232). -/
def onGetMinSize (s : State) : State :=
  let p := s.minMaxInfo
  let p := { p with ptMinTrackSize := { p.ptMinTrackSize with x := s._minWidth } }
  let p := { p with ptMinTrackSize := { p.ptMinTrackSize with y := s._minHeight } }
  { s with minMaxInfo := p }

/-- Function `getFolderName` of DlgSettings.cpp (lines 235-260). The result is `some buf`
when the function returns true, with `buf` the path written to the buffer
of the caller, and `none` when it returns false. -/
def getFolderName (env : Env) (s : State) : Option String × State :=
  let ok : Option String := none
  if env.SHGetMalloc = NO_ERROR then
    let pidl := env.SHBrowseForFolderW
    let (ok, s) :=
      if pidl ≠ 0 then
        let ok := match env.SHGetPathFromIDListW pidl with
          | some buf => some buf
          | none => ok
        (ok, s.emit (.shellFree pidl))
      else (ok, s)
    (ok, s.emit .shellRelease)
  else
    (ok, s)

/-- Function `dlgCfg_msgProc` of DlgSettings.cpp (lines 51-116). The `switch` over the
control id is the chain of tests on `ctrl`, in the order of its `case` labels;
a control id that matches no label leaves the `switch` and the procedure
returns `FALSE`. -/
def dlgCfg_msgProc (ids : ResourceIds) (env : Env) (m : Msg) (s : State) : Int × State :=
  if m.uMessage = WM_COMMAND then
    let ctrl := LOWORD m.wParam
    let ntfy := HIWORD m.wParam
    if ctrl = IDOK then
      let (okStat, s) := onOk ids env s
      let s := s.emit (.EndDialog 1)
      let s :=
        if okStat = 1 then s.emit (.msg_show MSG_NO_CHANGES .M_INFO)
        else if okStat = 2 then s.emit (.msg_show MSG_DIR_ERROR .M_WARN)
        else s
      (TRUE, s)
    else if ctrl = IDCANCEL then
      let s := s.emit (.EndDialog 0)
      (TRUE, s)
    else if ctrl ∈ ids.checkboxes then
      let s := if !s._inInit ∧ ntfy = BN_CLICKED then { s with _opChanged := true } else s
      (TRUE, s)
    else if ctrl = ids.IDC_CFG_ETX_DIR ∨ ctrl = ids.IDC_CFG_ETX_EXT then
      let s := if !s._inInit ∧ ntfy = EN_CHANGE then { s with _dirChanged := true } else s
      (TRUE, s)
    else if ctrl = ids.IDC_CFG_BTN_BRW then
      let s :=
        if !s._inInit ∧ ntfy = BN_CLICKED then
          match getFolderName env s with
          | (some pthBuf, s) =>
            let s := { s with _dirChanged := true }
            dlg_setText s ids.IDC_CFG_ETX_DIR pthBuf
          | (none, s) => s
        else s
      (TRUE, s)
    else
      (FALSE, s)
  else if m.uMessage = WM_WINDOWPOSCHANGED then
    let s := if ¬ (m.wpFlags &&& SWP_NOSIZE ≠ 0) then onResize ids env s 0 0 else s
    (FALSE, s)
  else if m.uMessage = WM_GETMINMAXINFO then
    (FALSE, onGetMinSize s)
  else if m.uMessage = WM_INITDIALOG then
    let (ok, s) := onInit ids env s
    if ok then (TRUE, s) else (FALSE, s)
  else
    (FALSE, s)

/-- The seven boolean feature flags of a configuration. -/
def Config.flags (c : Config) : List Bool :=
  [c.autoSaveEnabled, c.autoLoadEnabled, c.loadIntoCurrentEnabled,
   c.loadWithoutClosingEnabled, c.showInTitlebarEnabled, c.showInStatusbarEnabled,
   c.globalBookmarksEnabled]

/-- Is the call one of the seven boolean flag setters? -/
def isFlagSetter : CfgCall → Bool
  | .setAutoSave _ | .setAutoLoad _ | .setLoadIntoCurrent _ | .setLoadWithoutClosing _
  | .setShowInTitlebar _ | .setShowInStatusbar _ | .setGlobalBookmarks _ => true
  | _ => false

/-- Is the call `setSesDir` or `setSesExt`? -/
def isDirSetter : CfgCall → Bool
  | .setSesDir _ | .setSesExt _ => true
  | _ => false

/-- Is the event a message shown to the user (`msg::show`, `msg::error`)? -/
def isMessage : Event → Bool
  | .msg_show _ _ | .msg_error _ _ _ => true
  | _ => false

/-- Is the event a call of a method of `gCfg`? -/
def isCfgCall : Event → Bool
  | .gCfg _ => true
  | _ => false

/-- Sample resource ids, pairwise distinct and distinct from `IDOK` and `IDCANCEL`. -/
def sampleIds : ResourceIds :=
  { IDC_CFG_CHK_ASV := 101, IDC_CFG_CHK_ALD := 102, IDC_CFG_CHK_LIC := 103,
    IDC_CFG_CHK_LWC := 104, IDC_CFG_CHK_SITB := 105, IDC_CFG_CHK_SISB := 106,
    IDC_CFG_CHK_GBKM := 107, IDC_CFG_ETX_DIR := 108, IDC_CFG_ETX_EXT := 109,
    IDC_CFG_BTN_BRW := 110, IDC_CFG_ETX_WRO := 10, IDC_CFG_BTN_OK_XRO := 180,
    IDC_CFG_BTN_YBO := 10, IDC_CFG_BTN_CAN_XRO := 90 }

/-- A sample environment: every directory but "bad" is accepted as it is, every
extension is stored as it is, saving succeeds, the window is 400 by 300 and the
folder picker yields "picked". -/
def sampleEnv : Env :=
  { sesDirFor := fun p => if p = "bad" then none else some p
    sesExtFor := fun p => p
    saveResult := fun _ => true
    initWindowRect := ⟨10, 20, 410, 320⟩
    clientRect := ⟨0, 0, 390, 270⟩
    resizeWindowRect := ⟨10, 20, 410, 320⟩
    SHGetMalloc := NO_ERROR
    SHBrowseForFolderW := 7
    SHGetPathFromIDListW := fun _ => some "picked" }

/-- A sample configuration. -/
def sampleCfg : Config :=
  { autoSave := true, autoLoad := false, loadIntoCurrent := false,
    loadWithoutClosing := false, showInTitlebar := true, showInStatusbar := false,
    globalBookmarks := false, sesDir := "dir", sesExt := "ext", cfgDlgW := 0, cfgDlgH := 0 }

/-- The state before the dialog is first shown: the file-level variables have
their initial values, no box is checked and the edit boxes are empty. -/
def sampleState : State :=
  { _minWidth := 0, _minHeight := 0, _inInit := false, _opChanged := false,
    _dirChanged := false, gCfg := sampleCfg, checks := fun _ => false,
    texts := fun _ => "", minMaxInfo := ⟨⟨0, 0⟩, ⟨0, 0⟩, ⟨0, 0⟩, ⟨0, 0⟩, ⟨0, 0⟩⟩, trace := [] }

/-- The message `WM_COMMAND` for control `ctrl` with notification code `ntfy`. -/
def commandMsg (ctrl ntfy : Nat) : Msg :=
  { uMessage := WM_COMMAND, wParam := ntfy * 65536 + ctrl, wpFlags := 0 }

/-- Deliver a sequence of messages, each with the results of the collaborators at its time. -/
def deliver (ids : ResourceIds) : List (Env × Msg) → State → State
  | [], s => s
  | (env, m) :: rest, s => deliver ids rest (dlgCfg_msgProc ids env m s).2

/-- The sample environment with a configuration store that cannot be written. -/
def saveFailsEnv : Env := { sampleEnv with saveResult := fun _ => false }

/-- The sample state after the user has edited the directory box to "new". -/
def dirEditedState : State :=
  { sampleState with _dirChanged := true,
                     texts := Function.update sampleState.texts sampleIds.IDC_CFG_ETX_DIR "new" }

/-- A resize notification: `WM_WINDOWPOSCHANGED` whose `WINDOWPOS` has no flag set. -/
def resizedMsg : Msg := { uMessage := WM_WINDOWPOSCHANGED, wParam := 0, wpFlags := 0 }

/-- The sample state once the minimum size is latched at 400 by 300. -/
def latchedState : State := { sampleState with _minWidth := 400, _minHeight := 300 }

/-- The sample environment with a folder picker that the user cancels. -/
def pickerCancelledEnv : Env := { sampleEnv with SHBrowseForFolderW := 0 }

/-- The sample environment with a window rectangle as wide as a `LONG` allows:
its true width, 4294967295, does not fit an `INT`. -/
def widestWindowEnv : Env :=
  { sampleEnv with initWindowRect := ⟨-2147483648, 0, 2147483647, 300⟩ }

/-- The sample environment with a resized window whose true width, 4000000000,
does not fit an `INT`. -/
def overwideResizeEnv : Env :=
  { sampleEnv with resizeWindowRect := ⟨-2000000000, 0, 2000000000, 300⟩ }

end DlgSettings

/-! ## Theorems -/

/-- The events appended to a trace are recovered by `newEvents`. -/
theorem newEvents_append (t evs : List Event) : newEvents t (t ++ evs) = evs := by
  simp [newEvents]

/-- Nothing appended, nothing recovered. -/
theorem newEvents_self (t : List Event) : newEvents t t = [] := by
  simp [newEvents]

/-- Within the range of an `INT` the 32-bit subtraction is the subtraction. -/
theorem INT_sub_eq (a b : Int) (h1 : -2147483648 ≤ a - b) (h2 : a - b ≤ 2147483647) :
    INT_sub a b = a - b := by
  unfold INT_sub
  omega

/-- The result of the 32-bit subtraction is an `INT`. -/
theorem INT_sub_range (a b : Int) :
    -2147483648 ≤ INT_sub a b ∧ INT_sub a b ≤ 2147483647 := by
  unfold INT_sub
  omega

namespace DlgDelete

/-- C1. Delete dialog, IDOK: `dlgDel_msgProc` returns TRUE exactly when the selected
index is valid and `DeleteFileW` succeeds on its session file, it calls
`EndDialog(hDlg, 1)` exactly in that case, and in every other case it returns
FALSE without any call of `EndDialog`. -/
theorem dlgDel_idok_closes_iff_deleted (env : Env) (m : Msg) (s : State)
    (hm : m.uMessage = WM_COMMAND) (hc : LOWORD m.wParam = IDOK) :
    ((dlgDel_msgProc env m s).1 = TRUE ↔
      (env.app_isValidSessionIndex env.dlgSes_getLbSelectedData = true ∧
        env.DeleteFileW (env.app_getSessionFile env.dlgSes_getLbSelectedData) = true)) ∧
    (Event.EndDialog 1 ∈ newEvents s.trace (dlgDel_msgProc env m s).2.trace ↔
      (env.app_isValidSessionIndex env.dlgSes_getLbSelectedData = true ∧
        env.DeleteFileW (env.app_getSessionFile env.dlgSes_getLbSelectedData) = true)) ∧
    (¬ (env.app_isValidSessionIndex env.dlgSes_getLbSelectedData = true ∧
        env.DeleteFileW (env.app_getSessionFile env.dlgSes_getLbSelectedData) = true) →
      (dlgDel_msgProc env m s).1 = FALSE ∧
      ∀ n, Event.EndDialog n ∉ newEvents s.trace (dlgDel_msgProc env m s).2.trace) := by
  cases hv : env.app_isValidSessionIndex env.dlgSes_getLbSelectedData <;>
  cases hd : env.DeleteFileW (env.app_getSessionFile env.dlgSes_getLbSelectedData) <;>
  simp [dlgDel_msgProc, onOk, State.emit, hm, hc, hv, hd, newEvents_append, newEvents_self,
    TRUE, FALSE]

/-- Witness for C1: with the sample environment the file of the selected session
cannot be deleted, so the dialog stays open. -/
theorem dlgDel_idok_closes_iff_deleted_witness :
    (dlgDel_msgProc sampleEnv okMsg ⟨[]⟩).1 = FALSE ∧
    ∀ n, Event.EndDialog n ∉ newEvents [] (dlgDel_msgProc sampleEnv okMsg ⟨[]⟩).2.trace :=
  (dlgDel_idok_closes_iff_deleted sampleEnv okMsg ⟨[]⟩ (by decide) (by decide)).2.2 (by decide)

/-- C2. Delete dialog, `onOk`: `DeleteFileW` is called exactly when the selected
index is valid, once, on the path `app_getSessionFile` gives for that index; the
error message is shown exactly when the index is valid and the deletion fails,
with the code of `GetLastError` and the path; with an invalid index nothing is
called at all. -/
theorem dlgDel_onOk_effects (env : Env) (s : State) :
    (∀ p, Event.DeleteFileW p ∈ newEvents s.trace (onOk env s).2.trace ↔
      (env.app_isValidSessionIndex env.dlgSes_getLbSelectedData = true ∧
        p = env.app_getSessionFile env.dlgSes_getLbSelectedData)) ∧
    ((newEvents s.trace (onOk env s).2.trace).countP
      (fun e => match e with | .DeleteFileW _ => true | _ => false) ≤ 1) ∧
    (∀ le fmt args, Event.msg_error le fmt args ∈ newEvents s.trace (onOk env s).2.trace ↔
      (env.app_isValidSessionIndex env.dlgSes_getLbSelectedData = true ∧
        env.DeleteFileW (env.app_getSessionFile env.dlgSes_getLbSelectedData) = false ∧
        le = env.GetLastError ∧ fmt = "%s: Error deleting \"%s\"." ∧
        args = [env.functionName, env.app_getSessionFile env.dlgSes_getLbSelectedData])) ∧
    (env.app_isValidSessionIndex env.dlgSes_getLbSelectedData = false →
      newEvents s.trace (onOk env s).2.trace = []) := by
  cases hv : env.app_isValidSessionIndex env.dlgSes_getLbSelectedData <;>
  cases hd : env.DeleteFileW (env.app_getSessionFile env.dlgSes_getLbSelectedData) <;>
  simp [onOk, State.emit, hv, hd, newEvents_append, newEvents_self]

/-- Witness for C2: an environment whose selection (-1) is not a valid index. -/
theorem dlgDel_onOk_effects_witness :
    newEvents [] (onOk { sampleEnv with dlgSes_getLbSelectedData := -1 } ⟨[]⟩).2.trace = [] :=
  (dlgDel_onOk_effects { sampleEnv with dlgSes_getLbSelectedData := -1 } ⟨[]⟩).2.2.2
    (by decide)

end DlgDelete

namespace DlgSettings

/-- The status `onOk` returns, by cases on the dirty flags and the verdict of `setSesDir`. -/
theorem onOk_stat (ids : ResourceIds) (env : Env) (s : State) :
    (onOk ids env s).1 =
      if s._dirChanged = true then
        (if env.sesDirFor (dlg_getText s ids.IDC_CFG_ETX_DIR MAX_PATH) = none then 2 else 0)
      else if s._opChanged = true then 0 else 1 := by
  cases ho : s._opChanged <;> cases hd : s._dirChanged <;>
  cases hs : env.sesDirFor (dlg_getText s ids.IDC_CFG_ETX_DIR MAX_PATH) <;>
  simp [onOk, ho, hd, hs, State.callCfg, State.emit, dlg_getText, Config.setSesDir] <;>
  split <;> simp_all [dlg_getText]

/-- C3. Settings dialog, `onOk` returns 1 exactly when neither dirty flag is set, 2
exactly when `_dirChanged` is set and `gCfg.setSesDir` rejects the directory text,
and 0 exactly in the remaining cases; it returns nothing else, and never both 1
and 2. -/
theorem dlgCfg_onOk_three_outcomes (ids : ResourceIds) (env : Env) (s : State) :
    ((onOk ids env s).1 = 1 ↔ (s._opChanged = false ∧ s._dirChanged = false)) ∧
    ((onOk ids env s).1 = 2 ↔
      (s._dirChanged = true ∧
        env.sesDirFor (dlg_getText s ids.IDC_CFG_ETX_DIR MAX_PATH) = none)) ∧
    ((onOk ids env s).1 = 0 ↔
      (¬ (s._opChanged = false ∧ s._dirChanged = false) ∧
       ¬ (s._dirChanged = true ∧
        env.sesDirFor (dlg_getText s ids.IDC_CFG_ETX_DIR MAX_PATH) = none))) ∧
    ((onOk ids env s).1 = 0 ∨ (onOk ids env s).1 = 1 ∨ (onOk ids env s).1 = 2) ∧
    ¬ ((onOk ids env s).1 = 1 ∧ (onOk ids env s).1 = 2) := by
  rw [onOk_stat]
  cases ho : s._opChanged <;> cases hd : s._dirChanged <;>
  cases hs : env.sesDirFor (dlg_getText s ids.IDC_CFG_ETX_DIR MAX_PATH) <;> simp

end DlgSettings

namespace DlgSettings

/-- C4. Settings dialog, `onOk` writes back only dirty groups: without `_opChanged`
no flag setter is called and the seven flags keep their values; without
`_dirChanged` neither `setSesDir` nor `setSesExt` is called and directory and
extension keep their values; `gCfg.save` is called exactly once when a dirty flag
is set, and with no dirty flag nothing is called and `gCfg` is unchanged. -/
theorem dlgCfg_onOk_writes_dirty_groups_only (ids : ResourceIds) (env : Env) (s : State) :
    (s._opChanged = false →
      (∀ c, Event.gCfg c ∈ newEvents s.trace (onOk ids env s).2.trace → isFlagSetter c = false) ∧
      (onOk ids env s).2.gCfg.flags = s.gCfg.flags) ∧
    (s._dirChanged = false →
      (∀ c, Event.gCfg c ∈ newEvents s.trace (onOk ids env s).2.trace → isDirSetter c = false) ∧
      (onOk ids env s).2.gCfg.getSesDir = s.gCfg.getSesDir ∧
      (onOk ids env s).2.gCfg.getSesExt = s.gCfg.getSesExt) ∧
    ((s._opChanged = true ∨ s._dirChanged = true) →
      (newEvents s.trace (onOk ids env s).2.trace).count (Event.gCfg CfgCall.save) = 1) ∧
    ((s._opChanged = false ∧ s._dirChanged = false) →
      newEvents s.trace (onOk ids env s).2.trace = [] ∧ (onOk ids env s).2.gCfg = s.gCfg) := by
  cases ho : s._opChanged <;> cases hd : s._dirChanged <;>
  cases hs : env.sesDirFor (String.mk ((s.texts ids.IDC_CFG_ETX_DIR).data.take (MAX_PATH - 1))) <;>
  simp [onOk, ho, hd, hs, State.callCfg, State.emit, dlg_getText, dlg_getCheck,
    Config.setSesDir, Config.setSesExt, Config.flags, newEvents_append, newEvents_self,
    isFlagSetter, isDirSetter, Config.getSesDir, Config.getSesExt,
    Config.setAutoSave, Config.setAutoLoad, Config.setLoadIntoCurrent,
    Config.setLoadWithoutClosing, Config.setShowInTitlebar, Config.setShowInStatusbar,
    Config.setGlobalBookmarks, Config.autoSaveEnabled, Config.autoLoadEnabled,
    Config.loadIntoCurrentEnabled, Config.loadWithoutClosingEnabled,
    Config.showInTitlebarEnabled, Config.showInStatusbarEnabled,
    Config.globalBookmarksEnabled] <;>
  split <;>
  simp [newEvents_append, isFlagSetter, isDirSetter, State.emit]

end DlgSettings

namespace DlgSettings

/-- Witness for C4: with only the directory edited, the seven flags keep their values. -/
theorem dlgCfg_onOk_writes_dirty_groups_only_witness :
    (∀ c, Event.gCfg c ∈ newEvents dirEditedState.trace
        (onOk sampleIds sampleEnv dirEditedState).2.trace → isFlagSetter c = false) ∧
    (onOk sampleIds sampleEnv dirEditedState).2.gCfg.flags = dirEditedState.gCfg.flags :=
  (dlgCfg_onOk_writes_dirty_groups_only sampleIds sampleEnv dirEditedState).1 (by decide)

/-- C6 as stated fails: the directory was changed, `gCfg.save` fails, and
`app_readSessionDirectory` is not called. -/
theorem dlgCfg_onOk_rescan_counterexample :
    dirEditedState._dirChanged = true ∧
    Event.app_readSessionDirectory ∉
      newEvents dirEditedState.trace (onOk sampleIds saveFailsEnv dirEditedState).2.trace := by
  decide

/-- C6, amended. Settings dialog, `onOk` calls `app_readSessionDirectory` exactly
when `_dirChanged` is set and `gCfg.save` succeeds, and then once. -/
theorem dlgCfg_onOk_rescan_iff_dir_changed_and_saved (ids : ResourceIds) (env : Env)
    (s : State) :
    (Event.app_readSessionDirectory ∈ newEvents s.trace (onOk ids env s).2.trace ↔
      (s._dirChanged = true ∧ env.saveResult (onOk ids env s).2.gCfg = true)) ∧
    (newEvents s.trace (onOk ids env s).2.trace).count Event.app_readSessionDirectory ≤ 1 := by
  cases ho : s._opChanged <;> cases hd : s._dirChanged <;>
  cases hs : env.sesDirFor (String.mk ((s.texts ids.IDC_CFG_ETX_DIR).data.take (MAX_PATH - 1))) <;>
  simp [onOk, ho, hd, hs, State.callCfg, State.emit, dlg_getText, dlg_getCheck,
    Config.setSesDir, Config.setSesExt, newEvents_append, newEvents_self] <;>
  split <;>
  simp_all [newEvents_append, State.emit]

end DlgSettings

namespace DlgSettings

/-- What `onOk` can change: `gCfg`, and the trace, to which it appends only calls
of `gCfg` and of `app_readSessionDirectory`. -/
theorem onOk_shape (ids : ResourceIds) (env : Env) (s : State) :
    ∃ cfg evs, (onOk ids env s).2 = { s with gCfg := cfg, trace := s.trace ++ evs } ∧
      ∀ e ∈ evs, isCfgCall e = true ∨ e = Event.app_readSessionDirectory := by
  obtain ⟨mw, mh, ii, oc, dc, cfg, chk, txt, mmi, tr⟩ := s
  cases oc <;> cases dc <;>
  cases hs : env.sesDirFor (String.mk ((txt ids.IDC_CFG_ETX_DIR).data.take (MAX_PATH - 1))) <;>
  simp only [onOk, hs, State.callCfg, State.emit, dlg_getText, dlg_getCheck,
    Config.setSesDir, Config.setSesExt, List.append_assoc, List.singleton_append,
    if_true, if_false, Bool.false_eq_true] <;>
  first
  | (split <;> exact ⟨_, _, rfl, by simp [isCfgCall]⟩)
  | exact ⟨cfg, [], by simp, by simp⟩

end DlgSettings

namespace DlgSettings

/-- Function `onOk` leaves everything but `gCfg` and the trace alone. -/
theorem onOk_frame (ids : ResourceIds) (env : Env) (s : State) :
    (onOk ids env s).2._minWidth = s._minWidth ∧
    (onOk ids env s).2._minHeight = s._minHeight ∧
    (onOk ids env s).2._inInit = s._inInit ∧
    (onOk ids env s).2._opChanged = s._opChanged ∧
    (onOk ids env s).2._dirChanged = s._dirChanged ∧
    (onOk ids env s).2.checks = s.checks ∧
    (onOk ids env s).2.texts = s.texts ∧
    (onOk ids env s).2.minMaxInfo = s.minMaxInfo := by
  obtain ⟨cfg, evs, h, -⟩ := onOk_shape ids env s
  simp [h]

/-- The trace after `onOk` extends the trace before it, by calls that are neither
messages nor `EndDialog`. -/
theorem onOk_trace (ids : ResourceIds) (env : Env) (s : State) :
    ∃ evs, (onOk ids env s).2.trace = s.trace ++ evs ∧
      ∀ e ∈ evs, isMessage e = false ∧ ∀ n, e ≠ Event.EndDialog n := by
  obtain ⟨cfg, evs, h, hev⟩ := onOk_shape ids env s
  refine ⟨evs, by simp [h], ?_⟩
  intro e he
  rcases hev e he with h1 | h1
  · cases e <;> simp_all [isCfgCall, isMessage]
  · subst h1
    simp [isMessage]

/-- What `onResize` does: it records four `dlg::adjToEdge` calls and saves the
window size in `gCfg`. -/
theorem onResize_shape (ids : ResourceIds) (env : Env) (s : State) (dlgW dlgH : Int) :
    ∃ a b, onResize ids env s dlgW dlgH =
      { s with
        gCfg := s.gCfg.saveCfgDlgSize (INT_sub env.resizeWindowRect.right env.resizeWindowRect.left)
          (INT_sub env.resizeWindowRect.bottom env.resizeWindowRect.top),
        trace := s.trace ++ [Event.dlg_adjToEdge ids.IDC_CFG_ETX_DIR a b 4 ids.IDC_CFG_ETX_WRO 0 none,
          Event.dlg_adjToEdge ids.IDC_CFG_ETX_EXT a b 4 ids.IDC_CFG_ETX_WRO 0 none,
          Event.dlg_adjToEdge IDOK a b 3 ids.IDC_CFG_BTN_OK_XRO ids.IDC_CFG_BTN_YBO none,
          Event.dlg_adjToEdge IDCANCEL a b 3 ids.IDC_CFG_BTN_CAN_XRO ids.IDC_CFG_BTN_YBO (some true),
          Event.gCfg (CfgCall.saveCfgDlgSize
            (INT_sub env.resizeWindowRect.right env.resizeWindowRect.left)
            (INT_sub env.resizeWindowRect.bottom env.resizeWindowRect.top))] } := by
  by_cases hw : dlgW = 0
  · exact ⟨env.clientRect.right, env.clientRect.bottom,
      by simp [onResize, hw, State.emit, State.callCfg]⟩
  · exact ⟨dlgW, dlgH, by simp [onResize, hw, State.emit, State.callCfg]⟩

/-- What `getFolderName` returns, and that it changes nothing but the trace, to
which it appends only the release of the item list and of the shell allocator. -/
theorem getFolderName_shape (env : Env) (s : State) :
    (getFolderName env s).1 =
      (if env.SHGetMalloc = NO_ERROR ∧ env.SHBrowseForFolderW ≠ 0
        then env.SHGetPathFromIDListW env.SHBrowseForFolderW else none) ∧
    ∃ evs, (getFolderName env s).2 = { s with trace := s.trace ++ evs } ∧
      ∀ e ∈ evs, e = Event.shellFree env.SHBrowseForFolderW ∨ e = Event.shellRelease := by
  constructor
  · by_cases h1 : env.SHGetMalloc = NO_ERROR <;> by_cases h2 : env.SHBrowseForFolderW = 0 <;>
      simp [getFolderName, h1, h2]
    cases env.SHGetPathFromIDListW env.SHBrowseForFolderW <;> rfl
  · by_cases h1 : env.SHGetMalloc = NO_ERROR <;> by_cases h2 : env.SHBrowseForFolderW = 0 <;>
      simp only [getFolderName, h1, h2, State.emit, ne_eq, not_true_eq_false,
        not_false_eq_true, if_true, if_false, List.append_assoc, List.singleton_append]
    · exact ⟨[_], rfl, by simp⟩
    · exact ⟨[_, _], rfl, by simp⟩
    · exact ⟨[], by simp, by simp⟩
    · exact ⟨[], by simp, by simp⟩

end DlgSettings

namespace DlgSettings

/-- What `onInit` does: it returns true, clears the three flags, latches the
minimum size if it is not latched yet, populates the controls, saves the window
size in `gCfg` (through `onResize`), and shows no message. -/
theorem onInit_shape (ids : ResourceIds) (env : Env) (s : State) :
    (onInit ids env s).1 = true ∧
    ∃ chk txt evs, (onInit ids env s).2 =
      { _minWidth := if s._minWidth = 0 then INT_sub env.initWindowRect.right env.initWindowRect.left
          else s._minWidth,
        _minHeight := if s._minWidth = 0 then INT_sub env.initWindowRect.bottom env.initWindowRect.top
          else s._minHeight,
        _inInit := false, _opChanged := false, _dirChanged := false,
        gCfg := s.gCfg.saveCfgDlgSize (INT_sub env.resizeWindowRect.right env.resizeWindowRect.left)
          (INT_sub env.resizeWindowRect.bottom env.resizeWindowRect.top),
        checks := chk, texts := txt, minMaxInfo := s.minMaxInfo,
        trace := s.trace ++ evs } ∧
      (∀ c, Event.gCfg c ∈ evs → c = CfgCall.saveCfgDlgSize
        (INT_sub env.resizeWindowRect.right env.resizeWindowRect.left)
        (INT_sub env.resizeWindowRect.bottom env.resizeWindowRect.top)) ∧
      (∀ e ∈ evs, isMessage e = false ∧ ∀ n, e ≠ Event.EndDialog n) ∧
      Event.gCfg (CfgCall.saveCfgDlgSize
        (INT_sub env.resizeWindowRect.right env.resizeWindowRect.left)
        (INT_sub env.resizeWindowRect.bottom env.resizeWindowRect.top)) ∈ evs := by
  obtain ⟨mw, mh, ii, oc, dc, cfg, chk, txt, mmi, tr⟩ := s
  refine ⟨rfl, ?_⟩
  by_cases hmw : mw = 0 <;> by_cases hsz : cfg.cfgDlgW ≤ 0 ∨ cfg.cfgDlgH ≤ 0 <;>
  simp only [onInit, onResize, hmw, hsz, State.emit, State.callCfg, dlg_setCheck, dlg_setText,
    Config.readCfgDlgSize, if_true, if_false, List.append_assoc, List.singleton_append,
    List.cons_append, List.nil_append] <;>
  exact ⟨_, _, _, rfl, by simp, by simp [isMessage], by simp⟩

end DlgSettings

namespace DlgSettings

/-- C8. Settings dialog, IDOK: whatever `onOk` returns, `dlgCfg_msgProc` calls
`EndDialog(hDlg, 1)` right after `onOk` and returns TRUE; after that it shows
`MSG_NO_CHANGES` as an info message exactly when `onOk` returned 1,
`MSG_DIR_ERROR` as a warning exactly when `onOk` returned 2, and nothing exactly
when `onOk` returned 0: at most one message, and `onOk` itself shows none and
does not end the dialog. -/
theorem dlgCfg_idok_ends_dialog_then_reports (ids : ResourceIds) (env : Env) (m : Msg)
    (s : State) (hm : m.uMessage = WM_COMMAND) (hc : LOWORD m.wParam = IDOK) :
    (dlgCfg_msgProc ids env m s).1 = TRUE ∧
    ∃ msgs, newEvents s.trace (dlgCfg_msgProc ids env m s).2.trace =
        newEvents s.trace (onOk ids env s).2.trace ++ Event.EndDialog 1 :: msgs ∧
      (msgs = [Event.msg_show MSG_NO_CHANGES MsgKind.M_INFO] ↔ (onOk ids env s).1 = 1) ∧
      (msgs = [Event.msg_show MSG_DIR_ERROR MsgKind.M_WARN] ↔ (onOk ids env s).1 = 2) ∧
      (msgs = [] ↔ (onOk ids env s).1 = 0) ∧
      msgs.length ≤ 1 ∧
      ∀ e ∈ newEvents s.trace (onOk ids env s).2.trace,
        isMessage e = false ∧ ∀ n, e ≠ Event.EndDialog n := by
  obtain ⟨evs, ht, hev⟩ := onOk_trace ids env s
  have hstat := onOk_stat ids env s
  rcases h : onOk ids env s with ⟨st, s1⟩
  rw [h] at ht hstat
  simp only at ht hstat
  have h3 : st = 0 ∨ st = 1 ∨ st = 2 := by
    rw [hstat]; split_ifs <;> simp
  refine ⟨by simp [dlgCfg_msgProc, hm, hc], ?_⟩
  rcases h3 with h0 | h1 | h2
  · subst h0
    exact ⟨[], by simp [dlgCfg_msgProc, hm, hc, h, State.emit, ht, newEvents_append],
      by simp, by simp, by simp, by simp, by simpa [ht, newEvents_append] using hev⟩
  · subst h1
    exact ⟨[Event.msg_show MSG_NO_CHANGES MsgKind.M_INFO],
      by simp [dlgCfg_msgProc, hm, hc, h, State.emit, ht, newEvents_append],
      by simp, by simp, by simp, by simp, by simpa [ht, newEvents_append] using hev⟩
  · subst h2
    exact ⟨[Event.msg_show MSG_DIR_ERROR MsgKind.M_WARN],
      by simp [dlgCfg_msgProc, hm, hc, h, State.emit, ht, newEvents_append],
      by simp, by simp, by simp, by simp, by simpa [ht, newEvents_append] using hev⟩

end DlgSettings

namespace DlgSettings

/-- Once latched, the minimum size survives any one message. -/
theorem msgProc_minSize (ids : ResourceIds) (env : Env) (m : Msg) (s : State)
    (h : s._minWidth ≠ 0) :
    (dlgCfg_msgProc ids env m s).2._minWidth = s._minWidth ∧
    (dlgCfg_msgProc ids env m s).2._minHeight = s._minHeight := by
  have f1 := onOk_frame ids env s
  rcases hok : onOk ids env s with ⟨st, s1⟩
  rw [hok] at f1
  obtain ⟨hb, chk, txt, evs, h2, -, -, -⟩ := onInit_shape ids env s
  rcases hin : onInit ids env s with ⟨b, s2⟩
  rw [hin] at hb h2
  obtain ⟨a, b, h3⟩ := onResize_shape ids env s 0 0
  obtain ⟨-, evs4, h4, -⟩ := getFolderName_shape env s
  rcases hg : getFolderName env s with ⟨o, s4⟩
  rw [hg] at h4
  simp only at f1 hb h2 h4
  subst hb h2 h4
  simp only [dlgCfg_msgProc, hok, hin, h3, hg]
  split_ifs <;> (try cases o) <;> simp_all [State.emit, onGetMinSize, dlg_setText]

end DlgSettings

namespace DlgSettings

/-- Once latched, the minimum size survives any sequence of messages. -/
theorem deliver_minSize (ids : ResourceIds) (ms : List (Env × Msg)) :
    ∀ s : State, s._minWidth ≠ 0 →
      (deliver ids ms s)._minWidth = s._minWidth ∧
      (deliver ids ms s)._minHeight = s._minHeight := by
  induction ms with
  | nil => intro s _; exact ⟨rfl, rfl⟩
  | cons em rest ih =>
    intro s h
    obtain ⟨env, m⟩ := em
    have h1 := msgProc_minSize ids env m s h
    have h2 := ih (dlgCfg_msgProc ids env m s).2 (by rw [h1.1]; exact h)
    simp only [deliver]
    exact ⟨h2.1.trans h1.1, h2.2.trans h1.2⟩

/-- C10. Settings dialog, the minimum size is latched at the first initialization:
`onInit` sets `_minWidth` and `_minHeight` to the width and height of the window,
as the 32-bit subtractions of its coordinates give them, when `_minWidth` is 0 and
leaves them alone otherwise; once `_minWidth` is not 0, no message and no sequence
of messages changes them; and `WM_GETMINMAXINFO` returns FALSE having written
`(_minWidth, _minHeight)` to `ptMinTrackSize` and changed nothing else. When the
width and height of the window fit an `INT`, the values latched are exactly
`right - left` and `bottom - top`. -/
theorem dlgCfg_min_size_latched (ids : ResourceIds) (env : Env) (s : State) :
    (s._minWidth = 0 →
      (onInit ids env s).2._minWidth = INT_sub env.initWindowRect.right env.initWindowRect.left ∧
      (onInit ids env s).2._minHeight = INT_sub env.initWindowRect.bottom env.initWindowRect.top) ∧
    (s._minWidth ≠ 0 →
      (onInit ids env s).2._minWidth = s._minWidth ∧
      (onInit ids env s).2._minHeight = s._minHeight) ∧
    (s._minWidth ≠ 0 → ∀ m,
      (dlgCfg_msgProc ids env m s).2._minWidth = s._minWidth ∧
      (dlgCfg_msgProc ids env m s).2._minHeight = s._minHeight) ∧
    (s._minWidth ≠ 0 → ∀ ms,
      (deliver ids ms s)._minWidth = s._minWidth ∧
      (deliver ids ms s)._minHeight = s._minHeight) ∧
    (∀ m, m.uMessage = WM_GETMINMAXINFO →
      dlgCfg_msgProc ids env m s =
        (FALSE, { s with minMaxInfo :=
          { s.minMaxInfo with ptMinTrackSize := ⟨s._minWidth, s._minHeight⟩ } })) ∧
    (s._minWidth = 0 → env.initWindowRect.fitsINT →
      (onInit ids env s).2._minWidth = env.initWindowRect.right - env.initWindowRect.left ∧
      (onInit ids env s).2._minHeight = env.initWindowRect.bottom - env.initWindowRect.top) := by
  obtain ⟨-, chk, txt, evs, h2, -, -, -⟩ := onInit_shape ids env s
  refine ⟨?_, ?_, ?_, ?_, ?_, ?_⟩
  rotate_left 5
  · intro h hf
    rw [h2]
    simp only [h, if_true]
    exact ⟨INT_sub_eq _ _ hf.1.1 hf.1.2, INT_sub_eq _ _ hf.2.1 hf.2.2⟩
  · intro h; simp [h2, h]
  · intro h; simp [h2, h]
  · intro h m; exact msgProc_minSize ids env m s h
  · intro h ms; exact deliver_minSize ids ms s h
  · intro m hm
    simp [dlgCfg_msgProc, hm, onGetMinSize, WM_GETMINMAXINFO, WM_COMMAND, WM_WINDOWPOSCHANGED]

/-- Witness for C10: with the minimum size latched at 400 by 300, a resize
followed by a second initialization, in a window that is now 500 wide, leaves it. -/
theorem dlgCfg_min_size_latched_witness :
    (deliver sampleIds
      [(sampleEnv, resizedMsg),
       ({ sampleEnv with initWindowRect := ⟨0, 0, 500, 500⟩ }, ⟨WM_INITDIALOG, 0, 0⟩)]
      latchedState)._minWidth = latchedState._minWidth ∧
    (deliver sampleIds
      [(sampleEnv, resizedMsg),
       ({ sampleEnv with initWindowRect := ⟨0, 0, 500, 500⟩ }, ⟨WM_INITDIALOG, 0, 0⟩)]
      latchedState)._minHeight = latchedState._minHeight :=
  (dlgCfg_min_size_latched sampleIds sampleEnv latchedState).2.2.2.1 (by decide) _

end DlgSettings

namespace DlgSettings

/-- Witness for C8: OK without any change ends the dialog and returns TRUE. -/
theorem dlgCfg_idok_ends_dialog_then_reports_witness :
    (dlgCfg_msgProc sampleIds sampleEnv (commandMsg IDOK 0) sampleState).1 = TRUE :=
  (dlgCfg_idok_ends_dialog_then_reports sampleIds sampleEnv (commandMsg IDOK 0) sampleState
    (by decide) (by decide)).1

/-- A `WM_COMMAND` handled while `_inInit` is true leaves `_inInit` and both dirty
flags as they were. -/
theorem msgProc_inInit_command (ids : ResourceIds) (env : Env) (m : Msg) (s : State)
    (hm : m.uMessage = WM_COMMAND) (hi : s._inInit = true) :
    (dlgCfg_msgProc ids env m s).2._inInit = true ∧
    (dlgCfg_msgProc ids env m s).2._opChanged = s._opChanged ∧
    (dlgCfg_msgProc ids env m s).2._dirChanged = s._dirChanged := by
  have f1 := onOk_frame ids env s
  rcases hok : onOk ids env s with ⟨st, s1⟩
  rw [hok] at f1
  simp only at f1
  generalize hr : dlgCfg_msgProc ids env m s = r
  simp only [dlgCfg_msgProc, hm, hok, hi, if_true] at hr
  split_ifs at hr <;> subst hr <;> simp_all [State.emit]

/-- Any sequence of `WM_COMMAND` messages handled while `_inInit` is true leaves
`_inInit` and both dirty flags as they were. -/
theorem deliver_inInit_commands (ids : ResourceIds) (ms : List (Env × Msg)) :
    ∀ s : State, (∀ em ∈ ms, em.2.uMessage = WM_COMMAND) → s._inInit = true →
      (deliver ids ms s)._inInit = true ∧
      ((deliver ids ms s)._opChanged = s._opChanged ∧
       (deliver ids ms s)._dirChanged = s._dirChanged) := by
  induction ms with
  | nil => intro s _ hi; exact ⟨hi, rfl, rfl⟩
  | cons em rest ih =>
    intro s hms hi
    obtain ⟨env, m⟩ := em
    have h1 := msgProc_inInit_command ids env m s (hms (env, m) (List.mem_cons_self _ _)) hi
    have h2 := ih (dlgCfg_msgProc ids env m s).2
      (fun em hem => hms em (List.mem_cons_of_mem _ hem)) h1.1
    simp only [deliver]
    exact ⟨h2.1, h2.2.1.trans h1.2.1, h2.2.2.trans h1.2.2⟩

/-- C5. Settings dialog, dirty flags are set only after initialization completes:
`onInit` ends with `_opChanged`, `_dirChanged` and `_inInit` all false; a
`WM_COMMAND` handled while `_inInit` is true changes neither dirty flag; and a
message turns `_opChanged` on only if `_inInit` is false and it is a `BN_CLICKED`
of one of the seven checkboxes, `_dirChanged` only if `_inInit` is false and it is
an `EN_CHANGE` of the directory or extension box or a `BN_CLICKED` of the browse
button for which `getFolderName` returned true. Any sequence of `WM_COMMAND`
messages delivered while `_inInit` is true, as the notifications that populating
the controls raises are, leaves both dirty flags as they were. -/
theorem dlgCfg_dirty_flags_only_after_init (ids : ResourceIds) (env : Env) (m : Msg)
    (s : State) :
    ((onInit ids env s).2._opChanged = false ∧ (onInit ids env s).2._dirChanged = false ∧
      (onInit ids env s).2._inInit = false) ∧
    (m.uMessage = WM_COMMAND → s._inInit = true →
      (dlgCfg_msgProc ids env m s).2._opChanged = s._opChanged ∧
      (dlgCfg_msgProc ids env m s).2._dirChanged = s._dirChanged) ∧
    (s._opChanged = false → (dlgCfg_msgProc ids env m s).2._opChanged = true →
      s._inInit = false ∧ m.uMessage = WM_COMMAND ∧
      LOWORD m.wParam ∈ ids.checkboxes ∧ HIWORD m.wParam = BN_CLICKED) ∧
    (s._dirChanged = false → (dlgCfg_msgProc ids env m s).2._dirChanged = true →
      s._inInit = false ∧ m.uMessage = WM_COMMAND ∧
      (((LOWORD m.wParam = ids.IDC_CFG_ETX_DIR ∨ LOWORD m.wParam = ids.IDC_CFG_ETX_EXT) ∧
          HIWORD m.wParam = EN_CHANGE) ∨
        (LOWORD m.wParam = ids.IDC_CFG_BTN_BRW ∧ HIWORD m.wParam = BN_CLICKED ∧
          (getFolderName env s).1.isSome = true))) ∧
    (s._inInit = true → ∀ ms : List (Env × Msg), (∀ em ∈ ms, em.2.uMessage = WM_COMMAND) →
      (deliver ids ms s)._opChanged = s._opChanged ∧
      (deliver ids ms s)._dirChanged = s._dirChanged) := by
  have main :
      ((onInit ids env s).2._opChanged = false ∧ (onInit ids env s).2._dirChanged = false ∧
        (onInit ids env s).2._inInit = false) ∧
      (m.uMessage = WM_COMMAND → s._inInit = true →
        (dlgCfg_msgProc ids env m s).2._opChanged = s._opChanged ∧
        (dlgCfg_msgProc ids env m s).2._dirChanged = s._dirChanged) ∧
      (s._opChanged = false → (dlgCfg_msgProc ids env m s).2._opChanged = true →
        s._inInit = false ∧ m.uMessage = WM_COMMAND ∧
        LOWORD m.wParam ∈ ids.checkboxes ∧ HIWORD m.wParam = BN_CLICKED) ∧
      (s._dirChanged = false → (dlgCfg_msgProc ids env m s).2._dirChanged = true →
        s._inInit = false ∧ m.uMessage = WM_COMMAND ∧
        (((LOWORD m.wParam = ids.IDC_CFG_ETX_DIR ∨ LOWORD m.wParam = ids.IDC_CFG_ETX_EXT) ∧
            HIWORD m.wParam = EN_CHANGE) ∨
          (LOWORD m.wParam = ids.IDC_CFG_BTN_BRW ∧ HIWORD m.wParam = BN_CLICKED ∧
            (getFolderName env s).1.isSome = true))) := by
    have f1 := onOk_frame ids env s
    rcases hok : onOk ids env s with ⟨st, s1⟩
    rw [hok] at f1
    obtain ⟨hb, chk, txt, evs, h2, -, -, -⟩ := onInit_shape ids env s
    rcases hin : onInit ids env s with ⟨b, s2⟩
    rw [hin] at hb h2
    obtain ⟨a, b, h3⟩ := onResize_shape ids env s 0 0
    obtain ⟨-, evs4, h4, -⟩ := getFolderName_shape env s
    rcases hg : getFolderName env s with ⟨o, s4⟩
    rw [hg] at h4
    simp only at f1 hb h2 h4
    subst hb h2 h4
    simp only [dlgCfg_msgProc, hok, hin, h3, hg]
    split_ifs <;> (try cases o) <;> simp_all [State.emit, onGetMinSize, dlg_setText]
  exact ⟨main.1, main.2.1, main.2.2.1, main.2.2.2,
    fun hi ms hms => (deliver_inInit_commands ids ms s hms hi).2⟩

end DlgSettings

namespace DlgSettings

/-- Witness for C5: a click on the first checkbox turns `_opChanged` on, so the
message is a `BN_CLICKED` of a checkbox outside initialization. -/
theorem dlgCfg_dirty_flags_only_after_init_witness :
    sampleState._inInit = false ∧
    (commandMsg sampleIds.IDC_CFG_CHK_ASV BN_CLICKED).uMessage = WM_COMMAND ∧
    LOWORD (commandMsg sampleIds.IDC_CFG_CHK_ASV BN_CLICKED).wParam ∈ sampleIds.checkboxes ∧
    HIWORD (commandMsg sampleIds.IDC_CFG_CHK_ASV BN_CLICKED).wParam = BN_CLICKED :=
  (dlgCfg_dirty_flags_only_after_init sampleIds sampleEnv
    (commandMsg sampleIds.IDC_CFG_CHK_ASV BN_CLICKED) sampleState).2.2.1
    (by decide) (by decide)

/-- C7 as stated fails: a resize notification is not the OK command, yet it calls
`gCfg.saveCfgDlgSize` and changes the dialog size remembered in `gCfg`. -/
theorem dlgCfg_gCfg_mutated_on_resize_counterexample :
    ¬ (resizedMsg.uMessage = WM_COMMAND ∧ LOWORD resizedMsg.wParam = IDOK) ∧
    Event.gCfg (CfgCall.saveCfgDlgSize 400 300) ∈
      newEvents sampleState.trace
        (dlgCfg_msgProc sampleIds sampleEnv resizedMsg sampleState).2.trace ∧
    (dlgCfg_msgProc sampleIds sampleEnv resizedMsg sampleState).2.gCfg ≠ sampleState.gCfg := by
  decide

/-- C7, amended. For every message other than `WM_COMMAND` with control id `IDOK`,
the only method of `gCfg` called for its effect is `saveCfgDlgSize` with the
size of the window, as the 32-bit subtractions of its coordinates give it, and
the flags, directory and extension of `gCfg` are unchanged; `saveCfgDlgSize` is
called, and the remembered size set, on `WM_INITDIALOG` and on
`WM_WINDOWPOSCHANGED` without `SWP_NOSIZE`; on every other such message no
method of `gCfg` is called for its effect and `gCfg` is unchanged. When the width
and height of the window fit an `INT`, the size remembered is exactly
`right - left` by `bottom - top`. -/
theorem dlgCfg_gCfg_outside_ok_only_dialog_size (ids : ResourceIds) (env : Env) (m : Msg)
    (s : State) (h : ¬ (m.uMessage = WM_COMMAND ∧ LOWORD m.wParam = IDOK)) :
    (∀ c, Event.gCfg c ∈ newEvents s.trace (dlgCfg_msgProc ids env m s).2.trace →
      c = CfgCall.saveCfgDlgSize (INT_sub env.resizeWindowRect.right env.resizeWindowRect.left)
        (INT_sub env.resizeWindowRect.bottom env.resizeWindowRect.top)) ∧
    (dlgCfg_msgProc ids env m s).2.gCfg.flags = s.gCfg.flags ∧
    (dlgCfg_msgProc ids env m s).2.gCfg.getSesDir = s.gCfg.getSesDir ∧
    (dlgCfg_msgProc ids env m s).2.gCfg.getSesExt = s.gCfg.getSesExt ∧
    ((m.uMessage = WM_INITDIALOG ∨
        (m.uMessage = WM_WINDOWPOSCHANGED ∧ m.wpFlags &&& SWP_NOSIZE = 0)) →
      Event.gCfg (CfgCall.saveCfgDlgSize
          (INT_sub env.resizeWindowRect.right env.resizeWindowRect.left)
          (INT_sub env.resizeWindowRect.bottom env.resizeWindowRect.top)) ∈
        newEvents s.trace (dlgCfg_msgProc ids env m s).2.trace ∧
      (dlgCfg_msgProc ids env m s).2.gCfg =
        s.gCfg.saveCfgDlgSize (INT_sub env.resizeWindowRect.right env.resizeWindowRect.left)
          (INT_sub env.resizeWindowRect.bottom env.resizeWindowRect.top)) ∧
    (¬ (m.uMessage = WM_INITDIALOG ∨
        (m.uMessage = WM_WINDOWPOSCHANGED ∧ m.wpFlags &&& SWP_NOSIZE = 0)) →
      (∀ c, Event.gCfg c ∉ newEvents s.trace (dlgCfg_msgProc ids env m s).2.trace) ∧
      (dlgCfg_msgProc ids env m s).2.gCfg = s.gCfg) ∧
    (env.resizeWindowRect.fitsINT →
      (m.uMessage = WM_INITDIALOG ∨
        (m.uMessage = WM_WINDOWPOSCHANGED ∧ m.wpFlags &&& SWP_NOSIZE = 0)) →
      (dlgCfg_msgProc ids env m s).2.gCfg =
        s.gCfg.saveCfgDlgSize (env.resizeWindowRect.right - env.resizeWindowRect.left)
          (env.resizeWindowRect.bottom - env.resizeWindowRect.top)) := by
  have main :
      (∀ c, Event.gCfg c ∈ newEvents s.trace (dlgCfg_msgProc ids env m s).2.trace →
        c = CfgCall.saveCfgDlgSize (INT_sub env.resizeWindowRect.right env.resizeWindowRect.left)
          (INT_sub env.resizeWindowRect.bottom env.resizeWindowRect.top)) ∧
      (dlgCfg_msgProc ids env m s).2.gCfg.flags = s.gCfg.flags ∧
      (dlgCfg_msgProc ids env m s).2.gCfg.getSesDir = s.gCfg.getSesDir ∧
      (dlgCfg_msgProc ids env m s).2.gCfg.getSesExt = s.gCfg.getSesExt ∧
      ((m.uMessage = WM_INITDIALOG ∨
          (m.uMessage = WM_WINDOWPOSCHANGED ∧ m.wpFlags &&& SWP_NOSIZE = 0)) →
        Event.gCfg (CfgCall.saveCfgDlgSize
            (INT_sub env.resizeWindowRect.right env.resizeWindowRect.left)
            (INT_sub env.resizeWindowRect.bottom env.resizeWindowRect.top)) ∈
          newEvents s.trace (dlgCfg_msgProc ids env m s).2.trace ∧
        (dlgCfg_msgProc ids env m s).2.gCfg =
          s.gCfg.saveCfgDlgSize (INT_sub env.resizeWindowRect.right env.resizeWindowRect.left)
            (INT_sub env.resizeWindowRect.bottom env.resizeWindowRect.top)) ∧
      (¬ (m.uMessage = WM_INITDIALOG ∨
          (m.uMessage = WM_WINDOWPOSCHANGED ∧ m.wpFlags &&& SWP_NOSIZE = 0)) →
        (∀ c, Event.gCfg c ∉ newEvents s.trace (dlgCfg_msgProc ids env m s).2.trace) ∧
        (dlgCfg_msgProc ids env m s).2.gCfg = s.gCfg) := by
    rcases hok : onOk ids env s with ⟨st, s1⟩
    obtain ⟨hb, chk, txt, evs, h2, hcfg, -, hmem⟩ := onInit_shape ids env s
    rcases hin : onInit ids env s with ⟨b, s2⟩
    rw [hin] at hb h2
    obtain ⟨a, b, h3⟩ := onResize_shape ids env s 0 0
    obtain ⟨-, evs4, h4, hev4⟩ := getFolderName_shape env s
    rcases hg : getFolderName env s with ⟨o, s4⟩
    rw [hg] at h4
    simp only at hb h2 h4
    subst hb h2 h4
    have hno : ∀ c, Event.gCfg c ∉ evs4 := by
      intro c hc
      rcases hev4 _ hc with h5 | h5 <;> cases h5
    generalize hr : dlgCfg_msgProc ids env m s = r
    simp only [dlgCfg_msgProc, hok, hin, h3, hg] at hr
    split_ifs at hr <;> (try cases o) <;> subst hr <;>
    simp_all [State.emit, onGetMinSize, dlg_setText, newEvents_append, newEvents_self,
      Config.saveCfgDlgSize, Config.flags, Config.getSesDir, Config.getSesExt,
      Config.autoSaveEnabled, Config.autoLoadEnabled,
      Config.loadIntoCurrentEnabled, Config.loadWithoutClosingEnabled,
      Config.showInTitlebarEnabled, Config.showInStatusbarEnabled,
      Config.globalBookmarksEnabled, WM_COMMAND, WM_INITDIALOG, WM_WINDOWPOSCHANGED,
      WM_GETMINMAXINFO]

  refine ⟨main.1, main.2.1, main.2.2.1, main.2.2.2.1, main.2.2.2.2.1, main.2.2.2.2.2, ?_⟩
  intro hf hmsg
  rw [(main.2.2.2.2.1 hmsg).2, INT_sub_eq _ _ hf.1.1 hf.1.2, INT_sub_eq _ _ hf.2.1 hf.2.2]
end DlgSettings

namespace DlgSettings

/-- Witness for C7: on a resize notification `saveCfgDlgSize` is called with the
size of the window, 400 by 300, and `gCfg` remembers it. -/
theorem dlgCfg_gCfg_outside_ok_only_dialog_size_witness :
    Event.gCfg (CfgCall.saveCfgDlgSize
        (INT_sub sampleEnv.resizeWindowRect.right sampleEnv.resizeWindowRect.left)
        (INT_sub sampleEnv.resizeWindowRect.bottom sampleEnv.resizeWindowRect.top)) ∈
      newEvents sampleState.trace
        (dlgCfg_msgProc sampleIds sampleEnv resizedMsg sampleState).2.trace ∧
    (dlgCfg_msgProc sampleIds sampleEnv resizedMsg sampleState).2.gCfg =
      sampleState.gCfg.saveCfgDlgSize
        (INT_sub sampleEnv.resizeWindowRect.right sampleEnv.resizeWindowRect.left)
        (INT_sub sampleEnv.resizeWindowRect.bottom sampleEnv.resizeWindowRect.top) :=
  (dlgCfg_gCfg_outside_ok_only_dialog_size sampleIds sampleEnv resizedMsg sampleState
    (by decide)).2.2.2.2.1 (Or.inr ⟨by decide, by decide⟩)

/-- The id of the browse button differs from every other `case` label of the `switch`. -/
theorem brw_distinct (ids : ResourceIds) (hd : ids.caseLabels.Nodup) :
    ids.IDC_CFG_BTN_BRW ≠ IDOK ∧ ids.IDC_CFG_BTN_BRW ≠ IDCANCEL ∧
    ids.IDC_CFG_BTN_BRW ∉ ids.checkboxes ∧
    ids.IDC_CFG_BTN_BRW ≠ ids.IDC_CFG_ETX_DIR ∧ ids.IDC_CFG_BTN_BRW ≠ ids.IDC_CFG_ETX_EXT := by
  simp only [ResourceIds.caseLabels, List.nodup_cons, List.mem_cons, List.mem_singleton,
    not_or] at hd
  refine ⟨?_, ?_, ?_, ?_, ?_⟩
  · intro h; simp [h] at hd
  · intro h; simp [h] at hd
  · intro h
    simp only [ResourceIds.checkboxes, List.mem_cons, List.mem_singleton, List.not_mem_nil,
      or_false] at h
    rcases h with h | h | h | h | h | h | h <;> simp [h] at hd
  · intro h; simp [h] at hd
  · intro h; simp [h] at hd

/-- C9. Settings dialog, a `BN_CLICKED` of the browse button returns TRUE; if
`getFolderName` returns false, or is not called because `_inInit` is true, then
`_dirChanged`, `_opChanged`, the control texts and check states and `gCfg` are
unchanged and no message is shown; if it is called and returns true, `_dirChanged`
becomes true and the directory edit box holds exactly the returned path, with
`_opChanged` and `gCfg` unchanged and no message shown. `getFolderName` returns
true exactly when `SHGetMalloc` succeeded, the picker returned a non-null item
list and `SHGetPathFromIDListW` resolved it. The `case` labels of the `switch` are
pairwise distinct, as C++ requires. -/
theorem dlgCfg_browse_cancel_is_silent (ids : ResourceIds) (env : Env) (m : Msg)
    (s : State) (hd : ids.caseLabels.Nodup) (hm : m.uMessage = WM_COMMAND)
    (hc : LOWORD m.wParam = ids.IDC_CFG_BTN_BRW) (hn : HIWORD m.wParam = BN_CLICKED) :
    (dlgCfg_msgProc ids env m s).1 = TRUE ∧
    (((getFolderName env s).1 = none ∨ s._inInit = true) →
      (dlgCfg_msgProc ids env m s).2._dirChanged = s._dirChanged ∧
      (dlgCfg_msgProc ids env m s).2._opChanged = s._opChanged ∧
      (dlgCfg_msgProc ids env m s).2.texts = s.texts ∧
      (dlgCfg_msgProc ids env m s).2.checks = s.checks ∧
      (dlgCfg_msgProc ids env m s).2.gCfg = s.gCfg ∧
      ∀ e ∈ newEvents s.trace (dlgCfg_msgProc ids env m s).2.trace, isMessage e = false) ∧
    (∀ p, s._inInit = false → (getFolderName env s).1 = some p →
      (dlgCfg_msgProc ids env m s).2._dirChanged = true ∧
      (dlgCfg_msgProc ids env m s).2.texts ids.IDC_CFG_ETX_DIR = p ∧
      (dlgCfg_msgProc ids env m s).2._opChanged = s._opChanged ∧
      (dlgCfg_msgProc ids env m s).2.gCfg = s.gCfg ∧
      ∀ e ∈ newEvents s.trace (dlgCfg_msgProc ids env m s).2.trace, isMessage e = false) ∧
    ((getFolderName env s).1.isSome = true ↔
      (env.SHGetMalloc = NO_ERROR ∧ env.SHBrowseForFolderW ≠ 0 ∧
        (env.SHGetPathFromIDListW env.SHBrowseForFolderW).isSome = true)) ∧
    (∀ p, (getFolderName env s).1 = some p →
      env.SHGetPathFromIDListW env.SHBrowseForFolderW = some p) := by
  obtain ⟨hres, evs4, h4, hev4⟩ := getFolderName_shape env s
  have hnm : ∀ e ∈ evs4, isMessage e = false := by
    intro e he
    rcases hev4 e he with h5 | h5 <;> subst h5 <;> rfl
  have hres2 := hres
  rcases hg : getFolderName env s with ⟨o, s4⟩
  rw [hg] at h4 hres
  simp only at h4 hres
  subst h4
  obtain ⟨h1, h2, hck, h3, h3b⟩ := brw_distinct ids hd
  have h3c : ¬ (ids.IDC_CFG_BTN_BRW = ids.IDC_CFG_ETX_DIR ∨
      ids.IDC_CFG_BTN_BRW = ids.IDC_CFG_ETX_EXT) := by
    rintro (h | h)
    · exact h3 h
    · exact h3b h
  generalize hr : dlgCfg_msgProc ids env m s = r
  simp only [dlgCfg_msgProc, hm, hc, h1, h2, hck, h3c, hn, hg, if_true, if_false] at hr
  subst hr
  refine ⟨?_, ?_, ?_, ?_, ?_⟩
  · rfl
  · clear hres hres2 hg hev4
    cases o <;> cases hi : s._inInit <;>
      simp [dlg_setText, newEvents_append, newEvents_self]
    all_goals exact hnm
  · intro p hi hp
    simp only at hp
    subst hp
    simp [hi, dlg_setText, newEvents_append]
    intro e he
    rcases he with he | he
    · exact hnm e he
    · subst he; rfl
  · simp only [hres]
    by_cases ha : env.SHGetMalloc = NO_ERROR <;> by_cases hb : env.SHBrowseForFolderW = 0 <;>
      simp [ha, hb]
  · intro p hp
    simp only [hres] at hp
    split_ifs at hp
    exact hp

end DlgSettings

namespace DlgSettings

/-- Witness for C9: the user cancels the folder picker; nothing changes and no
message is shown. -/
theorem dlgCfg_browse_cancel_is_silent_witness :
    (dlgCfg_msgProc sampleIds pickerCancelledEnv
        (commandMsg sampleIds.IDC_CFG_BTN_BRW BN_CLICKED) sampleState).2._dirChanged =
      sampleState._dirChanged ∧
    (dlgCfg_msgProc sampleIds pickerCancelledEnv
        (commandMsg sampleIds.IDC_CFG_BTN_BRW BN_CLICKED) sampleState).2._opChanged =
      sampleState._opChanged ∧
    (dlgCfg_msgProc sampleIds pickerCancelledEnv
        (commandMsg sampleIds.IDC_CFG_BTN_BRW BN_CLICKED) sampleState).2.texts =
      sampleState.texts ∧
    (dlgCfg_msgProc sampleIds pickerCancelledEnv
        (commandMsg sampleIds.IDC_CFG_BTN_BRW BN_CLICKED) sampleState).2.checks =
      sampleState.checks ∧
    (dlgCfg_msgProc sampleIds pickerCancelledEnv
        (commandMsg sampleIds.IDC_CFG_BTN_BRW BN_CLICKED) sampleState).2.gCfg =
      sampleState.gCfg ∧
    ∀ e ∈ newEvents sampleState.trace
        (dlgCfg_msgProc sampleIds pickerCancelledEnv
          (commandMsg sampleIds.IDC_CFG_BTN_BRW BN_CLICKED) sampleState).2.trace,
      isMessage e = false :=
  (dlgCfg_browse_cancel_is_silent sampleIds pickerCancelledEnv
    (commandMsg sampleIds.IDC_CFG_BTN_BRW BN_CLICKED) sampleState
    (by decide) (by decide) (by decide) (by decide)).2.1 (Or.inl (by decide))

end DlgSettings

namespace DlgSettings

/-- The 32-bit subtraction in `onInit` wraps around: a window from -2147483648 to
2147483647 latches the minimum width -1. -/
theorem onInit_minWidth_wraps :
    (onInit sampleIds widestWindowEnv sampleState).2._minWidth = -1 ∧
    (onInit sampleIds widestWindowEnv sampleState).2._minHeight = 300 := by
  decide

/-- The 32-bit subtraction in `onResize` wraps around: a window from -2000000000
to 2000000000 is remembered with width -294967296. -/
theorem onResize_width_wraps :
    (dlgCfg_msgProc sampleIds overwideResizeEnv resizedMsg sampleState).2.gCfg.readCfgDlgSize =
      (-294967296, 300) := by
  decide

end DlgSettings

end NppPlugin
